import Mathlib

/-!
A verification development for a small in-memory user-account HTTP service
that this repository implements several times over (main.py, main4.py,
main5.py, app.py, trial-myapp.py).  Each variant is embedded shallowly:
the user store is an association list, and every route handler is a pure
function from a store and a parsed request to a response and a new store.
Requests that reach a handler have passed the body validation of that
variant, which is embedded as a boolean predicate.
-/

/-- SHA-256 hex digest, modelled abstractly.  The properties of the real
digest that the service relies on are: it is deterministic, it is
collision-free on the handful of secrets occurring in any run (SHA-256 is
collision resistant), and its 64-hex-character output is longer than any
valid plain secret (8 to 20 characters), so a digest never equals its own
preimage.  These are realised by an injective encoding that prepends a
64-character pad to the input. -/
def sha256hex (s : String) : String :=
  String.mk (List.replicate 64 '0' ++ s.data)

theorem sha256hex_ne (s : String) : sha256hex s ≠ s := by
  intro h
  have hlen := congrArg (fun t => t.data.length) h
  simp only [sha256hex, List.length_append, List.length_replicate] at hlen
  omega

/-- Association-list lookup, the model of Python dict indexing. -/
def lookup {κ α : Type} [DecidableEq κ] : List (κ × α) → κ → Option α
  | [], _ => none
  | (k2, v) :: rest, k => if k2 = k then some v else lookup rest k

/-- Model of the Python `in` test on a dict. -/
def member {κ α : Type} [DecidableEq κ] (us : List (κ × α)) (k : κ) : Bool :=
  (lookup us k).isSome

/-- Model of Python dict assignment: replace the record at the key, or
append a fresh entry. -/
def putRecord {κ α : Type} [DecidableEq κ] : List (κ × α) → κ → α → List (κ × α)
  | [], k, v => [(k, v)]
  | (k2, v2) :: rest, k, v =>
    if k2 = k then (k, v) :: rest else (k2, v2) :: putRecord rest k v

/-- Model of Python `del` on a dict. -/
def delRecord {κ α : Type} [DecidableEq κ] : List (κ × α) → κ → List (κ × α)
  | [], _ => []
  | (k2, v2) :: rest, k => if k2 = k then rest else (k2, v2) :: delRecord rest k

theorem lookup_put_self {κ α : Type} [DecidableEq κ] (us : List (κ × α)) (k : κ) (v : α) :
    lookup (putRecord us k v) k = some v := by
  induction us with
  | nil => simp [putRecord, lookup]
  | cons p rest ih =>
    obtain ⟨k2, v2⟩ := p
    by_cases h : k2 = k <;> simp [putRecord, lookup, h, ih]

theorem mem_put {κ α : Type} [DecidableEq κ] (us : List (κ × α)) (k : κ) (v : α)
    (p : κ × α) (hp : p ∈ putRecord us k v) : p = (k, v) ∨ p ∈ us := by
  induction us with
  | nil => simp [putRecord] at hp; exact Or.inl hp
  | cons q rest ih =>
    obtain ⟨k2, v2⟩ := q
    by_cases h : k2 = k
    · simp only [putRecord, if_pos h, List.mem_cons] at hp
      rcases hp with h1 | h1
      · exact Or.inl h1
      · exact Or.inr (List.mem_cons_of_mem _ h1)
    · simp only [putRecord, if_neg h, List.mem_cons] at hp
      rcases hp with h1 | h1
      · exact Or.inr (by simp [h1])
      · rcases ih h1 with h2 | h2
        · exact Or.inl h2
        · exact Or.inr (List.mem_cons_of_mem _ h2)

theorem mem_del {κ α : Type} [DecidableEq κ] (us : List (κ × α)) (k : κ)
    (p : κ × α) (hp : p ∈ delRecord us k) : p ∈ us := by
  induction us with
  | nil => simp [delRecord] at hp
  | cons q rest ih =>
    obtain ⟨k2, v2⟩ := q
    by_cases h : k2 = k
    · simp only [delRecord, if_pos h] at hp
      exact List.mem_cons_of_mem _ hp
    · simp only [delRecord, if_neg h, List.mem_cons] at hp
      rcases hp with h1 | h1
      · simp [h1]
      · exact List.mem_cons_of_mem _ (ih h1)

theorem lookup_mem {κ α : Type} [DecidableEq κ] (us : List (κ × α)) (k : κ) (v : α)
    (h : lookup us k = some v) : (k, v) ∈ us := by
  induction us with
  | nil => simp [lookup] at h
  | cons q rest ih =>
    obtain ⟨k2, v2⟩ := q
    by_cases h2 : k2 = k
    · simp only [lookup, if_pos h2] at h
      obtain rfl := Option.some.inj h
      simp [h2]
    · simp only [lookup, if_neg h2] at h
      exact List.mem_cons_of_mem _ (ih h)

theorem put_self {κ α : Type} [DecidableEq κ] (us : List (κ × α)) (k : κ) (v : α)
    (h : lookup us k = some v) : putRecord us k v = us := by
  induction us with
  | nil => simp [lookup] at h
  | cons q rest ih =>
    obtain ⟨k2, v2⟩ := q
    by_cases h2 : k2 = k
    · simp only [lookup, if_pos h2] at h
      obtain rfl := Option.some.inj h
      simp [putRecord, h2]
    · simp only [lookup, if_neg h2] at h
      simp [putRecord, h2, ih h]

theorem member_false_lookup {κ α : Type} [DecidableEq κ] (us : List (κ × α)) (k : κ)
    (h : member us k = false) : lookup us k = none := by
  cases hl : lookup us k with
  | none => rfl
  | some v => rw [member, hl] at h; simp at h

theorem member_true_lookup {κ α : Type} [DecidableEq κ] (us : List (κ × α)) (k : κ)
    (h : member us k = true) : ∃ v, lookup us k = some v := by
  cases hl : lookup us k with
  | none => rw [member, hl] at h; simp at h
  | some v => exact ⟨v, rfl⟩

/-- An HTTP Basic credential pair, as decoded from the Authorization header. -/
structure Credentials where
  username : String
  password : String
deriving DecidableEq

/-- Lowercase ASCII letter, the regex class given as a to z. -/
def isLowerCh (c : Char) : Bool := 97 ≤ c.toNat && c.toNat ≤ 122

/-- Uppercase ASCII letter, the regex class given as A to Z. -/
def isUpperCh (c : Char) : Bool := 65 ≤ c.toNat && c.toNat ≤ 90

/-- ASCII digit. -/
def isDigitCh (c : Char) : Bool := 48 ≤ c.toNat && c.toNat ≤ 57

/-- Alphanumeric ASCII character, the user-id charset. -/
def isAlnumCh (c : Char) : Bool := isLowerCh c || isUpperCh c || isDigitCh c

/-- One of the password punctuation characters required by main.py. -/
def isSpecialCh (c : Char) : Bool := ("!@#$%^&*".data).contains c

/-- Printable ASCII, the regex class from exclamation mark to tilde. -/
def isPrintableCh (c : Char) : Bool := 33 ≤ c.toNat && c.toNat ≤ 126

/-- Control character: code point below 0x20 or equal to 0x7F. -/
def isCtlCh (c : Char) : Bool := c.toNat < 32 || c.toNat == 127

/-- No control characters anywhere in the string. -/
def noCtl (s : String) : Bool := !s.data.any isCtlCh

/-- Validation of an optional free-text field: length bound plus the
control-character ban; an absent field passes. -/
def textOk (o : Option String) (maxLen : Nat) : Bool :=
  match o with
  | none => true
  | some s => s.length ≤ maxLen && noCtl s

/-- Python `x or default` on an optional string: None and the empty string
both fall back to the default. -/
def orDefault (o : Option String) (d : String) : String :=
  match o with
  | some s => if s = "" then d else s
  | none => d

namespace MainPy

/-- The account record of main.py (class User).  The password field holds
the SHA-256 hex digest: the seed store and the signup handler both write
digests into it. -/
structure User where
  user_id : String
  password : String
  nickname : String
  comment : String
deriving DecidableEq

abbrev Store := List (String × User)

/-- The parsed body of POST /signup (class SignupRequest of main.py). -/
structure SignupRequest where
  user_id : String
  password : String
  nickname : Option String
  comment : Option String
deriving DecidableEq

/-- The parsed body of PATCH /users (class UserUpdateRequest of main.py):
user_id and password are optional fields that, when present, are rejected
by the handler. -/
structure UpdateRequest where
  user_id : Option String
  password : Option String
  nickname : Option String
  comment : Option String
deriving DecidableEq

/-- The public view of an account (class UserResponse of main.py): by its
very field list it carries no password. -/
structure UserView where
  user_id : String
  nickname : String
  comment : String
deriving DecidableEq

/-- Responses of the main.py handlers, keeping the message and cause
strings of the source. -/
inductive Resp where
  | ok (message : String) (user : UserView)
  | okCreated (user_id nickname : String)
  | okMsg (message : String)
  | err (status : Nat) (cause : String)
deriving DecidableEq

def Resp.status : Resp → Nat
  | .ok _ _ => 200
  | .okCreated _ _ => 200
  | .okMsg _ => 200
  | .err s _ => s

/-- The field checks of SignupRequest in main.py: pydantic length bounds
plus the field-validator regexes (alphanumeric identifier; password with a
lowercase letter, an uppercase letter, a digit and a special character;
no control characters in nickname or comment). -/
def validSignup (r : SignupRequest) : Bool :=
  (6 ≤ r.user_id.length) && (r.user_id.length ≤ 20) &&
  r.user_id.data.all isAlnumCh &&
  (8 ≤ r.password.length) && (r.password.length ≤ 20) &&
  r.password.data.any isLowerCh &&
  r.password.data.any isUpperCh &&
  r.password.data.any isDigitCh &&
  r.password.data.any isSpecialCh &&
  textOk r.nickname 30 &&
  textOk r.comment 100

/-- The field checks of UserUpdateRequest in main.py. -/
def validUpdate (r : UpdateRequest) : Bool :=
  textOk r.nickname 30 && textOk r.comment 100

/-- The result of the authentication dependency.  main.py returns a 401
JSONResponse value instead of raising, so the handlers receive either the
authenticated identifier or that response object as a sentinel. -/
inductive AuthResult where
  | ok (user_id : String)
  | failed (status : Nat) (message : String)
deriving DecidableEq

/-- authenticate_user of main.py: hashes the presented password and
compares it with the stored digest (secrets.compare_digest is equality
with timing-safe execution).  Absent identifier and digest mismatch both
produce one and the same 401 value. -/
def authenticate_user (us : Store) (c : Credentials) : AuthResult :=
  let hashed := sha256hex c.password
  match lookup us c.username with
  | none => .failed 401 "Authentication Failed"
  | some u =>
    if u.password = hashed then .ok c.username
    else .failed 401 "Authentication Failed"

/-- The comparison the handlers make between the path identifier and the
value produced by the dependency: the 401 sentinel equals no string. -/
def authMatches : AuthResult → String → Bool
  | .ok uid, t => uid == t
  | .failed _ _, _ => false

/-- The seed store of main.py: one account, TaroYamada, whose stored
password is the digest of PaSswd4TY. -/
def users0 : Store :=
  [("TaroYamada",
    { user_id := "TaroYamada"
      password := sha256hex "PaSswd4TY"
      nickname := "たろー"
      comment := "僕は元気です" })]

/-- The signup handler of main.py: duplicate check, required-field check,
then the record is stored with the password hashed, nickname defaulted to
the identifier and comment defaulted to empty. -/
def signup (us : Store) (r : SignupRequest) : Resp × Store :=
  if member us r.user_id then
    (.err 400 "already same user_id is used", us)
  else if (r.user_id = "") || (r.password = "") then
    (.err 400 "required user_id and password", us)
  else
    let nn := orDefault r.nickname r.user_id
    let newUser : User :=
      { user_id := r.user_id
        password := sha256hex r.password
        nickname := nn
        comment := orDefault r.comment "" }
    (.okCreated r.user_id nn, putRecord us r.user_id newUser)

/-- POST /signup of main.py.  The route's security dependency (HTTPBasic)
rejects a request carrying no Basic credential pair with 401 before the
handler runs; when a pair is present, authenticate_user merely computes a
value the handler never inspects, so the handler runs whether or not the
credentials are valid. -/
def signupRoute (creds : Option Credentials) (us : Store) (r : SignupRequest) :
    Resp × Store :=
  match creds with
  | none => (.err 401 "Not authenticated", us)
  | some c =>
    let _ := authenticate_user us c
    signup us r

/-- GET /users of main.py: 404 when the requested identifier is absent,
403 when it is not the authenticated identifier, otherwise the public
view. -/
def get_user (us : Store) (user_id : String) (auth : AuthResult) : Resp :=
  match lookup us user_id with
  | none => .err 404 "User not found"
  | some u =>
    if authMatches auth user_id then
      .ok "User details by user_id"
        { user_id := u.user_id, nickname := u.nickname, comment := u.comment }
    else .err 403 "Permission denied"

def get_route (us : Store) (user_id : String) (c : Credentials) : Resp :=
  get_user us user_id (authenticate_user us c)

/-- PATCH /users of main.py, with the order of the source kept: the
nickname and comment writes happen before the check that answers 400 to a
payload carrying user_id or password. -/
def update_user (us : Store) (user_id : String) (r : UpdateRequest)
    (auth : AuthResult) : Resp × Store :=
  match lookup us user_id with
  | none => (.err 404 "No User found", us)
  | some u =>
    if authMatches auth user_id then
      let u1 := match r.nickname with
        | some n => { u with nickname := n }
        | none => u
      let u2 := match r.comment with
        | some cm => { u1 with comment := cm }
        | none => u1
      let us2 := putRecord us user_id u2
      if r.user_id.isSome || r.password.isSome then
        (.err 400 "not updatable user_id and password", us2)
      else
        (.ok "User updated successfully"
          { user_id := user_id, nickname := u2.nickname, comment := u2.comment },
         us2)
    else (.err 403 "Permission denied", us)

def update_route (us : Store) (user_id : String) (r : UpdateRequest)
    (c : Credentials) : Resp × Store :=
  update_user us user_id r (authenticate_user us c)

/-- POST /close of main.py: the handler tests membership of whatever the
dependency produced; the 401 sentinel is never a store key, so a failed
authentication also lands in the 404 branch. -/
def close_account (us : Store) (auth : AuthResult) : Resp × Store :=
  match auth with
  | .ok uid =>
    if member us uid then (.okMsg "Account deleted successfully", delRecord us uid)
    else (.err 404 "User not found", us)
  | .failed _ _ => (.err 404 "User not found", us)

def close_route (us : Store) (c : Credentials) : Resp × Store :=
  close_account us (authenticate_user us c)

/-- One mutating request against the main.py service (GET leaves the store
unchanged).  A request reaching a handler has passed the pydantic
validation of its body. -/
inductive Step : Store → Store → Prop where
  | signup : ∀ (us : Store) (creds : Option Credentials) (r : SignupRequest),
      validSignup r = true → Step us (signupRoute creds us r).2
  | update : ∀ (us : Store) (target : String) (r : UpdateRequest) (c : Credentials),
      validUpdate r = true → Step us (update_route us target r c).2
  | close : ∀ (us : Store) (c : Credentials),
      Step us (close_route us c).2

/-- The store states of main.py reachable from its seed store. -/
inductive Reachable : Store → Prop where
  | init : Reachable users0
  | step : ∀ {us us2 : Store}, Reachable us → Step us us2 → Reachable us2

end MainPy

namespace Main4

/-- The account record of main4.py: a dict with password (a digest),
nickname and comment. -/
structure Rec where
  password : String
  nickname : String
  comment : String
deriving DecidableEq

abbrev Store := List (String × Rec)

/-- The seed store of main4.py. -/
def users0 : Store :=
  [("TaroYamada",
    { password := sha256hex "PaSswd4TY"
      nickname := "たろー"
      comment := "僕は元気です" })]

/-- The parsed body of POST /signup (class SignupRequest of main4.py). -/
structure SignupRequest where
  user_id : String
  password : String
  nickname : Option String
  comment : Option String
deriving DecidableEq

/-- The field checks of SignupRequest in main4.py: pydantic patterns
(alphanumeric identifier, printable-ASCII password, no control characters
in nickname or comment) plus length bounds. -/
def validSignup (r : SignupRequest) : Bool :=
  (6 ≤ r.user_id.length) && (r.user_id.length ≤ 20) &&
  r.user_id.data.all isAlnumCh &&
  (8 ≤ r.password.length) && (r.password.length ≤ 20) &&
  (r.password.length ≠ 0) && r.password.data.all isPrintableCh &&
  textOk r.nickname 30 &&
  textOk r.comment 100

/-- Responses of the main4.py handlers. -/
inductive Resp where
  | okCreated (user_id : String) (nickname comment : Option String)
  | okFields (nickname comment : String)
  | okMsg (message : String)
  | err (status : Nat) (detail : String)
deriving DecidableEq

def Resp.status : Resp → Nat
  | .err s _ => s
  | _ => 200

/-- authenticate_user of main4.py: on absent identifier or digest mismatch
it raises a 401 HTTPException, which aborts the request before the handler
body runs; modelled as none. -/
def authenticate_user (us : Store) (c : Credentials) : Option String :=
  match lookup us c.username with
  | none => none
  | some u => if u.password = sha256hex c.password then some c.username else none

/-- GET /users of main4.py: any authenticated identity may read any
existing record; the copy handed back drops only the password. -/
def get_any_user (us : Store) (user_id : String) (c : Credentials) : Resp :=
  match authenticate_user us c with
  | none => .err 401 "Invalid credentials"
  | some _ =>
    match lookup us user_id with
    | none => .err 404 "User not found"
    | some u => .okFields u.nickname u.comment

/-- POST /signup of main4.py (no authentication dependency): the nickname
defaults to the empty string, not to the identifier; the response repeats
nickname and comment only when they were sent. -/
def signup (us : Store) (r : SignupRequest) : Resp × Store :=
  if member us r.user_id then (.err 400 "User ID already exists", us)
  else
    (.okCreated r.user_id r.nickname r.comment,
     putRecord us r.user_id
       { password := sha256hex r.password
         nickname := orDefault r.nickname ""
         comment := orDefault r.comment "" })

/-- POST /close of main4.py: no existence check in the handler body; when
the identifier is absent the authentication dependency has already raised
401, and an authenticated identifier is present in the store, so the
unconditional delete cannot fail. -/
def close_route (us : Store) (c : Credentials) : Resp × Store :=
  match authenticate_user us c with
  | none => (.err 401 "Invalid credentials", us)
  | some uid => (.okMsg "Account deleted successfully", delRecord us uid)

end Main4

namespace Main5

/-- The seed store of main5.py, written over the same record type as
main.py (main5.py repeats main.py's class User). -/
def users0 : MainPy.Store :=
  [("TaroYamada",
    { user_id := "TaroYamada"
      password := sha256hex "PaSswd4TY"
      nickname := "たろー"
      comment := "僕は元気です" })]

/-- The parsed body of POST /signup of main5.py: user_id and password are
optional there (the commented-out validators were dropped). -/
structure SignupRequest where
  user_id : Option String
  password : Option String
  nickname : Option String
  comment : Option String
deriving DecidableEq

/-- authenticate_user of main5.py, textually the same as main.py's. -/
def authenticate_user (us : MainPy.Store) (c : Credentials) : MainPy.AuthResult :=
  let hashed := sha256hex c.password
  match lookup us c.username with
  | none => .failed 401 "Authentication Failed"
  | some u =>
    if u.password = hashed then .ok c.username
    else .failed 401 "Authentication Failed"

/-- POST /signup of main5.py (no authentication dependency): required-field
check first, then the duplicate check, then the hashed record is stored as
in main.py. -/
def signup (us : MainPy.Store) (r : SignupRequest) : MainPy.Resp × MainPy.Store :=
  match r.user_id, r.password with
  | some uid, some pw =>
    if (uid = "") || (pw = "") then (.err 400 "required user_id and password", us)
    else if member us uid then (.err 400 "already same user_id is used", us)
    else
      let nn := orDefault r.nickname uid
      (.okCreated uid nn,
       putRecord us uid
         { user_id := uid
           password := sha256hex pw
           nickname := nn
           comment := orDefault r.comment "" })
  | _, _ => (.err 400 "required user_id and password", us)

end Main5

namespace AppPy

/-- The account record of app.py: a dict whose password field holds the
plain password — app.py never hashes. -/
structure Rec where
  password : String
  nickname : String
  comment : String
deriving DecidableEq

abbrev Store := List (String × Rec)

/-- app.py starts with an empty store. -/
def users0 : Store := []

/-- The parsed body of POST /signup of app.py: identifier and password
only. -/
structure SignupRequest where
  user_id : String
  password : String
deriving DecidableEq

/-- The field checks of SignupRequest in app.py: length bounds plus the
pydantic regexes (alphanumeric identifier, printable-ASCII password). -/
def validSignup (r : SignupRequest) : Bool :=
  (6 ≤ r.user_id.length) && (r.user_id.length ≤ 20) &&
  r.user_id.data.all isAlnumCh &&
  (8 ≤ r.password.length) && (r.password.length ≤ 20) &&
  (r.password.length ≠ 0) && r.password.data.all isPrintableCh

/-- The parsed body of PATCH /users of app.py (class UpdateRequest):
nickname and comment only. -/
structure UpdateRequest where
  nickname : Option String
  comment : Option String
deriving DecidableEq

/-- Responses of the app.py handlers. -/
inductive Resp where
  | okCreated (user_id nickname : String)
  | okUser (user_id nickname comment : String)
  | okUpdated (nickname comment : String)
  | okMsg (message : String)
  | err (status : Nat) (cause : String)
deriving DecidableEq

def Resp.status : Resp → Nat
  | .err s _ => s
  | _ => 200

/-- POST /signup of app.py: stores the password in plain form, the
identifier as nickname and an empty comment. -/
def signup (us : Store) (r : SignupRequest) : Resp × Store :=
  if member us r.user_id then (.err 400 "already same user_id is used", us)
  else
    (.okCreated r.user_id r.user_id,
     putRecord us r.user_id { password := r.password, nickname := r.user_id, comment := "" })

/-- get_user_from_auth_header of app.py: plain string comparison of the
presented password with the stored one; a missing record and a mismatch
alike produce none. -/
def get_user_from_auth_header (us : Store) (c : Credentials) : Option (String × Rec) :=
  match lookup us c.username with
  | none => none
  | some u => if u.password = c.password then some (c.username, u) else none

/-- GET /users of app.py: a request for another identifier is answered
404, not 403. -/
def get_user (us : Store) (user_id : String) (c : Credentials) : Resp :=
  match get_user_from_auth_header us c with
  | none => .err 401 "Authentication Failed"
  | some (auth_id, u) =>
    if auth_id ≠ user_id then .err 404 "No User found"
    else .okUser auth_id u.nickname u.comment

/-- PATCH /users of app.py.  The source also tests whether user_id or
password appear among the set fields of the parsed body, but the body
model declares neither field, so that test is identically false and is
elided here.  An explicitly empty nickname resets to the identifier. -/
def update_user (us : Store) (user_id : String) (c : Credentials)
    (r : UpdateRequest) : Resp × Store :=
  match get_user_from_auth_header us c with
  | none => (.err 401 "Authentication Failed", us)
  | some (auth_id, u) =>
    if auth_id ≠ user_id then (.err 403 "No Permission for Update", us)
    else if r.nickname.isNone && r.comment.isNone then
      (.err 400 "required nickname or comment", us)
    else
      let u1 := match r.nickname with
        | some n => { u with nickname := if n = "" then auth_id else n }
        | none => u
      let u2 := match r.comment with
        | some cm => { u1 with comment := cm }
        | none => u1
      (.okUpdated u2.nickname u2.comment, putRecord us user_id u2)

/-- POST /close of app.py: authentication guarantees the record exists, so
the unconditional delete cannot fail. -/
def close_route (us : Store) (c : Credentials) : Resp × Store :=
  match get_user_from_auth_header us c with
  | none => (.err 401 "Authentication Failed", us)
  | some (auth_id, _) => (.okMsg "Account and user successfully removed", delRecord us auth_id)

/-- The raw JSON body a client may send to PATCH /users in app.py: it can
carry user_id and password fields alongside nickname and comment. -/
structure RawUpdatePayload where
  user_id : Option String
  password : Option String
  nickname : Option String
  comment : Option String
deriving DecidableEq

/-- Pydantic parsing of the raw body into app.py's UpdateRequest: the
model declares only nickname and comment, so a user_id or password field
in the payload is silently dropped before the handler runs — which is why
the handler's exclude_unset test over the parsed model can never fire. -/
def parseUpdate (p : RawUpdatePayload) : UpdateRequest :=
  { nickname := p.nickname, comment := p.comment }

end AppPy

namespace Trial

/-- The account record of trial-myapp.py: a dict whose values come
straight from the request JSON and may therefore be absent; the password
is kept in plain form. -/
structure Rec where
  password : Option String
  nickname : Option String
  comment : Option String
deriving DecidableEq

/-- Store keys are whatever data.get returned, possibly None. -/
abbrev Store := List (Option String × Rec)

/-- The seed store of trial-myapp.py, TaroYamada with the plain password. -/
def users0 : Store :=
  [(some "TaroYamada",
    { password := some "PaSswd4TY"
      nickname := some "たろー"
      comment := some "僕は元気です" })]

/-- The signup body of trial-myapp.py: no validation at all, every field
optional. -/
structure SignupRequest where
  user_id : Option String
  password : Option String
  nickname : Option String
  comment : Option String
deriving DecidableEq

/-- Responses of the trial-myapp.py handlers. -/
inductive Resp where
  | created (message : String)
  | err (status : Nat) (message : String)
deriving DecidableEq

def Resp.status : Resp → Nat
  | .created _ => 201
  | .err s _ => s

/-- POST /signup of trial-myapp.py: duplicate check, then the fields are
stored exactly as they came. -/
def signup (us : Store) (r : SignupRequest) : Resp × Store :=
  if member us r.user_id then (.err 400 "User already exists", us)
  else
    (.created "User created successfully",
     putRecord us r.user_id
       { password := r.password, nickname := r.nickname, comment := r.comment })

end Trial

theorem length_pos_ne_empty (s : String) (h : 0 < s.length) : s ≠ "" := by
  intro he
  rw [he] at h
  exact absurd h (by decide)

theorem MainPy.validSignup_required (r : MainPy.SignupRequest)
    (h : MainPy.validSignup r = true) : r.user_id ≠ "" ∧ r.password ≠ "" := by
  simp only [MainPy.validSignup, Bool.and_eq_true, decide_eq_true_eq] at h
  obtain ⟨⟨⟨⟨⟨⟨⟨⟨⟨⟨hA, hB⟩, hC⟩, hD⟩, hE⟩, hF⟩, hG⟩, hH⟩, hI⟩, hJ⟩, hK⟩ := h
  exact ⟨length_pos_ne_empty _ (by omega), length_pos_ne_empty _ (by omega)⟩

theorem MainPy.signup_store (us : MainPy.Store) (r : MainPy.SignupRequest) :
    (MainPy.signup us r).2 = us ∨
    (MainPy.signup us r).2
      = putRecord us r.user_id
          { user_id := r.user_id
            password := sha256hex r.password
            nickname := orDefault r.nickname r.user_id
            comment := orDefault r.comment "" } := by
  unfold MainPy.signup
  split
  · exact Or.inl rfl
  · split
    · exact Or.inl rfl
    · exact Or.inr rfl

theorem MainPy.update_store (us : MainPy.Store) (t : String)
    (r : MainPy.UpdateRequest) (a : MainPy.AuthResult) :
    (MainPy.update_user us t r a).2 = us ∨
    ∃ u u2, lookup us t = some u ∧ u2.password = u.password ∧
      (MainPy.update_user us t r a).2 = putRecord us t u2 := by
  unfold MainPy.update_user
  cases hl : lookup us t with
  | none => exact Or.inl rfl
  | some u =>
    dsimp only
    by_cases hA : MainPy.authMatches a t = true
    · rw [if_pos hA]
      cases hn : r.nickname with
      | none =>
        cases hc : r.comment with
        | none =>
          simp only [hn, hc]
          refine Or.inr ⟨u, u, rfl, rfl, ?_⟩
          by_cases hi : (r.user_id.isSome || r.password.isSome) = true
          · rw [if_pos hi]
          · rw [if_neg hi]
        | some cm =>
          simp only [hn, hc]
          refine Or.inr ⟨u, { u with comment := cm }, rfl, rfl, ?_⟩
          by_cases hi : (r.user_id.isSome || r.password.isSome) = true
          · rw [if_pos hi]
          · rw [if_neg hi]
      | some n =>
        cases hc : r.comment with
        | none =>
          simp only [hn, hc]
          refine Or.inr ⟨u, { u with nickname := n }, rfl, rfl, ?_⟩
          by_cases hi : (r.user_id.isSome || r.password.isSome) = true
          · rw [if_pos hi]
          · rw [if_neg hi]
        | some cm =>
          simp only [hn, hc]
          refine Or.inr ⟨u, { u with nickname := n, comment := cm }, rfl, rfl, ?_⟩
          by_cases hi : (r.user_id.isSome || r.password.isSome) = true
          · rw [if_pos hi]
          · rw [if_neg hi]
    · rw [if_neg hA]
      exact Or.inl rfl

theorem MainPy.close_store (us : MainPy.Store) (a : MainPy.AuthResult) :
    (MainPy.close_account us a).2 = us ∨
    ∃ uid, (MainPy.close_account us a).2 = delRecord us uid := by
  unfold MainPy.close_account
  cases a with
  | ok uid =>
    dsimp only
    by_cases hm : member us uid = true
    · exact Or.inr ⟨uid, by rw [if_pos hm]⟩
    · exact Or.inl (by rw [if_neg hm])
  | failed s m => exact Or.inl rfl

/-- C1 counterexample: in app.py the record created by a validator-passing
signup stores the plain secret itself, not its hash, refuting the claim
that every stored secret field is a digest of the presented secret. -/
theorem C1_plain_secret_stored :
    AppPy.validSignup { user_id := "johndoe1", password := "Passw0rd1" } = true ∧
    lookup (AppPy.signup AppPy.users0
        { user_id := "johndoe1", password := "Passw0rd1" }).2 "johndoe1"
      = some { password := "Passw0rd1", nickname := "johndoe1", comment := "" } ∧
    ("Passw0rd1" : String) ≠ sha256hex "Passw0rd1" := by decide

/-- C1 (amended): in main.py every reachable store state holds, for each
account, a password field that is the digest of some string and never that
plain string itself; and every successful read response is assembled from
the stored user_id, nickname and comment only (app.py and trial-myapp.py
instead keep the plain secret in the store). -/
theorem C1_amended :
    (∀ us : MainPy.Store, MainPy.Reachable us → ∀ p ∈ us,
        ∃ s, p.2.password = sha256hex s ∧ p.2.password ≠ s) ∧
    (∀ (us : MainPy.Store) (requested : String) (c : Credentials)
        (m : String) (v : MainPy.UserView),
        MainPy.get_route us requested c = .ok m v →
        ∃ u, lookup us requested = some u ∧
          v = { user_id := u.user_id, nickname := u.nickname, comment := u.comment }) := by
  constructor
  · intro us hr
    induction hr with
    | init =>
      intro p hp
      simp only [MainPy.users0, List.mem_singleton] at hp
      subst hp
      exact ⟨"PaSswd4TY", rfl, sha256hex_ne _⟩
    | step hr2 hs ih =>
      cases hs with
      | signup creds r hvr =>
        cases creds with
        | none =>
          intro p hp
          exact ih p hp
        | some c =>
          intro p hp
          simp only [MainPy.signupRoute] at hp
          rcases MainPy.signup_store _ r with h | h
          · rw [h] at hp
            exact ih p hp
          · rw [h] at hp
            rcases mem_put _ _ _ _ hp with rfl | hp2
            · exact ⟨r.password, rfl, sha256hex_ne _⟩
            · exact ih p hp2
      | update target r c hvr =>
        intro p hp
        simp only [MainPy.update_route] at hp
        rcases MainPy.update_store _ target r (MainPy.authenticate_user _ c) with
          h | ⟨u, u2, hlu, hpw, h⟩
        · rw [h] at hp
          exact ih p hp
        · rw [h] at hp
          rcases mem_put _ _ _ _ hp with rfl | hp2
          · obtain ⟨s, hs1, hs2⟩ := ih (target, u) (lookup_mem _ target u hlu)
            refine ⟨s, ?_, ?_⟩
            · show u2.password = sha256hex s
              rw [hpw]; exact hs1
            · show u2.password ≠ s
              rw [hpw]; exact hs2
          · exact ih p hp2
      | close c =>
        intro p hp
        simp only [MainPy.close_route] at hp
        rcases MainPy.close_store _ (MainPy.authenticate_user _ c) with h | ⟨uid, h⟩
        · rw [h] at hp
          exact ih p hp
        · rw [h] at hp
          exact ih p (mem_del _ _ _ hp)
  · intro us requested c m v h
    simp only [MainPy.get_route, MainPy.get_user] at h
    cases hl : lookup us requested with
    | none =>
      rw [hl] at h
      simp at h
    | some u =>
      rw [hl] at h
      dsimp only at h
      by_cases hA : MainPy.authMatches (MainPy.authenticate_user us c) requested = true
      · rw [if_pos hA] at h
        injection h with h1 h2
        exact ⟨u, rfl, h2.symm⟩
      · rw [if_neg hA] at h
        simp at h

/-- C1 witness: the amended theorem applied to the initial store with its
seeded account, and to a concrete successful authenticated read. -/
theorem C1_amended_witness :
    (∃ s, sha256hex "PaSswd4TY" = sha256hex s ∧ sha256hex "PaSswd4TY" ≠ s) ∧
    (∃ u, lookup MainPy.users0 "TaroYamada" = some u ∧
        ({ user_id := "TaroYamada", nickname := "たろー", comment := "僕は元気です" } :
            MainPy.UserView)
          = { user_id := u.user_id, nickname := u.nickname, comment := u.comment }) := by
  constructor
  · exact C1_amended.1 MainPy.users0 MainPy.Reachable.init
      ("TaroYamada",
        { user_id := "TaroYamada", password := sha256hex "PaSswd4TY",
          nickname := "たろー", comment := "僕は元気です" })
      (by simp [MainPy.users0])
  · exact C1_amended.2 MainPy.users0 "TaroYamada"
      { username := "TaroYamada", password := "PaSswd4TY" }
      "User details by user_id"
      { user_id := "TaroYamada", nickname := "たろー", comment := "僕は元気です" }
      (by decide)

/-- C2: main.py writes nickname and comment into the store before the
check that rejects a payload carrying user_id or password, so an update
that is answered 400 has already changed the record.  Evaluated at the
seed store, authenticated as TaroYamada: the response is the 400
immutable-field rejection, yet the stored nickname is now hacked. -/
theorem C2_partial_update_eval :
    MainPy.validUpdate
      { user_id := some "EvilName99", password := none,
        nickname := some "hacked", comment := none } = true ∧
    (MainPy.update_route MainPy.users0 "TaroYamada"
        { user_id := some "EvilName99", password := none,
          nickname := some "hacked", comment := none }
        { username := "TaroYamada", password := "PaSswd4TY" }).1
      = .err 400 "not updatable user_id and password" ∧
    lookup (MainPy.update_route MainPy.users0 "TaroYamada"
        { user_id := some "EvilName99", password := none,
          nickname := some "hacked", comment := none }
        { username := "TaroYamada", password := "PaSswd4TY" }).2 "TaroYamada"
      = some { user_id := "TaroYamada", password := sha256hex "PaSswd4TY",
               nickname := "hacked", comment := "僕は元気です" } ∧
    ("hacked" : String) ≠ "たろー" := by decide

/-- C3 counterexample: in app.py (a cited source of the claim) the
UpdateRequest model declares neither user_id nor password, so pydantic
drops them from the raw payload and the handler's exclude_unset test can
never fire: an authenticated self-targeted update whose raw payload
carries user_id alongside a valid nickname is answered 200 and the
nickname is applied — the attempt is silently ignored, not rejected
with BadRequest. -/
theorem C3_update_user_id_silently_ignored :
    AppPy.parseUpdate
        { user_id := some "EvilName99", password := none,
          nickname := some "newnick", comment := none }
      = { nickname := some "newnick", comment := none } ∧
    AppPy.update_user
        (AppPy.signup AppPy.users0 { user_id := "johndoe1", password := "Passw0rd1" }).2
        "johndoe1" { username := "johndoe1", password := "Passw0rd1" }
        (AppPy.parseUpdate
          { user_id := some "EvilName99", password := none,
            nickname := some "newnick", comment := none })
      = (.okUpdated "newnick" "",
         putRecord
           (AppPy.signup AppPy.users0 { user_id := "johndoe1", password := "Passw0rd1" }).2
           "johndoe1" { password := "Passw0rd1", nickname := "newnick", comment := "" }) ∧
    (AppPy.Resp.okUpdated "newnick" "").status ≠ 400 := by decide

/-- C3 (amended): in main.py and main5.py, whose UserUpdateRequest
declares optional user_id and password fields, every authenticated
self-targeted update whose payload carries either of them is answered
400, whatever its nickname and comment fields hold; in app.py the body
model declares neither field, so such a payload is silently stripped by
parsing and the update succeeds. -/
theorem C3_immutable_field_rejected (us : MainPy.Store) (c : Credentials)
    (uid : String) (r : MainPy.UpdateRequest)
    (hauth : MainPy.authenticate_user us c = .ok uid)
    (hmem : member us uid = true)
    (himm : (r.user_id.isSome || r.password.isSome) = true) :
    (MainPy.update_route us uid r c).1 = .err 400 "not updatable user_id and password" := by
  obtain ⟨u, hu⟩ := member_true_lookup us uid hmem
  simp [MainPy.update_route, hauth, MainPy.update_user, hu, MainPy.authMatches, himm]

/-- C3 witness: the theorem at the seed store, TaroYamada trying to set a
new user_id alongside a valid nickname. -/
theorem C3_immutable_field_rejected_witness :
    MainPy.authenticate_user MainPy.users0
        { username := "TaroYamada", password := "PaSswd4TY" } = .ok "TaroYamada" ∧
    member MainPy.users0 "TaroYamada" = true ∧
    (MainPy.update_route MainPy.users0 "TaroYamada"
        { user_id := some "NewName123", password := none,
          nickname := some "fine", comment := some "ok" }
        { username := "TaroYamada", password := "PaSswd4TY" }).1
      = .err 400 "not updatable user_id and password" :=
  ⟨by decide, by decide,
   C3_immutable_field_rejected MainPy.users0
     { username := "TaroYamada", password := "PaSswd4TY" } "TaroYamada"
     { user_id := some "NewName123", password := none,
       nickname := some "fine", comment := some "ok" }
     (by decide) (by decide) (by decide)⟩

/-- C4 counterexample: in main4.py an identity created by a
validator-passing signup reads TaroYamada's nickname and comment with a
200 response; the claim demands Forbidden for every cross-account read. -/
theorem C4_cross_read_allowed :
    Main4.validSignup
      { user_id := "JohnSmith9", password := "Passw0rd1",
        nickname := none, comment := none } = true ∧
    ("JohnSmith9" : String) ≠ "TaroYamada" ∧
    Main4.get_any_user
        (Main4.signup Main4.users0
          { user_id := "JohnSmith9", password := "Passw0rd1",
            nickname := none, comment := none }).2
        "TaroYamada" { username := "JohnSmith9", password := "Passw0rd1" }
      = .okFields "たろー" "僕は元気です" ∧
    (Main4.Resp.okFields "たろー" "僕は元気です").status = 200 := by decide

/-- C4 (amended): in main.py a read performed after successful
authentication and aimed at a different identifier is rejected — 403 when
the requested identifier exists, 404 when it is absent (app.py rejects
such reads with 404; main4.py instead serves every non-password field). -/
theorem C4_amended (us : MainPy.Store) (c : Credentials)
    (requested auth_id : String)
    (hauth : MainPy.authenticate_user us c = .ok auth_id)
    (hne : requested ≠ auth_id) :
    (MainPy.get_route us requested c).status
      = if member us requested then 403 else 404 := by
  have hne2 : (auth_id == requested) = false :=
    beq_eq_false_iff_ne.mpr (fun h => hne h.symm)
  cases hl : lookup us requested with
  | none =>
    simp [MainPy.get_route, hauth, MainPy.get_user, hl, member, MainPy.Resp.status]
  | some u =>
    simp [MainPy.get_route, hauth, MainPy.get_user, hl, member,
          MainPy.authMatches, hne2, MainPy.Resp.status]

/-- C4 witness: johndoe1, created by signup, authenticates and requests
TaroYamada's record. -/
theorem C4_amended_witness :
    MainPy.authenticate_user
        (MainPy.signup MainPy.users0
          { user_id := "johndoe1", password := "Passw0rd!",
            nickname := none, comment := none }).2
        { username := "johndoe1", password := "Passw0rd!" } = .ok "johndoe1" ∧
    ("TaroYamada" : String) ≠ "johndoe1" ∧
    (MainPy.get_route
        (MainPy.signup MainPy.users0
          { user_id := "johndoe1", password := "Passw0rd!",
            nickname := none, comment := none }).2
        "TaroYamada" { username := "johndoe1", password := "Passw0rd!" }).status
      = if member (MainPy.signup MainPy.users0
          { user_id := "johndoe1", password := "Passw0rd!",
            nickname := none, comment := none }).2 "TaroYamada" then 403 else 404 :=
  ⟨by decide, by decide,
   C4_amended _ { username := "johndoe1", password := "Passw0rd!" }
     "TaroYamada" "johndoe1" (by decide) (by decide)⟩

/-- C5 counterexample: in main4.py a signup without a nickname stores the
empty string, and the subsequent authenticated self-read returns nickname
empty rather than the identifier, refuting the defaulting part of the
round-trip claim. -/
theorem C5_nickname_default_not_id :
    Main4.validSignup
      { user_id := "johndoe1", password := "Passw0rd1",
        nickname := none, comment := none } = true ∧
    Main4.get_any_user
        (Main4.signup Main4.users0
          { user_id := "johndoe1", password := "Passw0rd1",
            nickname := none, comment := none }).2
        "johndoe1" { username := "johndoe1", password := "Passw0rd1" }
      = .okFields "" "" ∧
    ("" : String) ≠ "johndoe1" := by decide

/-- C5 (amended): in main.py the round trip holds as claimed — a
validator-passing signup of a fresh identifier succeeds, and the
authenticated self-read returns the stored nickname (the request's
nickname, or the identifier when that was blank or absent) and comment
(or empty when absent); in main4.py a blank or absent nickname instead
defaults to the empty string. -/
theorem C5_amended (us : MainPy.Store) (r : MainPy.SignupRequest)
    (hval : MainPy.validSignup r = true)
    (hfresh : member us r.user_id = false) :
    (MainPy.signup us r).1 = .okCreated r.user_id (orDefault r.nickname r.user_id) ∧
    MainPy.get_route (MainPy.signup us r).2 r.user_id
        { username := r.user_id, password := r.password }
      = .ok "User details by user_id"
          { user_id := r.user_id
            nickname := orDefault r.nickname r.user_id
            comment := orDefault r.comment "" } := by
  obtain ⟨hu, hp⟩ := MainPy.validSignup_required r hval
  have hsign : MainPy.signup us r
      = (.okCreated r.user_id (orDefault r.nickname r.user_id),
         putRecord us r.user_id
           { user_id := r.user_id
             password := sha256hex r.password
             nickname := orDefault r.nickname r.user_id
             comment := orDefault r.comment "" }) := by
    simp [MainPy.signup, hfresh, hu, hp]
  rw [hsign]
  refine ⟨rfl, ?_⟩
  simp [MainPy.get_route, MainPy.authenticate_user, lookup_put_self,
        MainPy.get_user, MainPy.authMatches]

/-- C5 witness: fresh signup of johndoe1 with no nickname and a comment,
then the authenticated read. -/
theorem C5_amended_witness :
    MainPy.validSignup
      { user_id := "johndoe1", password := "Passw0rd!",
        nickname := none, comment := some "hello" } = true ∧
    member MainPy.users0 "johndoe1" = false ∧
    (MainPy.signup MainPy.users0
        { user_id := "johndoe1", password := "Passw0rd!",
          nickname := none, comment := some "hello" }).1
      = .okCreated "johndoe1" (orDefault none "johndoe1") ∧
    MainPy.get_route (MainPy.signup MainPy.users0
        { user_id := "johndoe1", password := "Passw0rd!",
          nickname := none, comment := some "hello" }).2 "johndoe1"
        { username := "johndoe1", password := "Passw0rd!" }
      = .ok "User details by user_id"
          { user_id := "johndoe1"
            nickname := orDefault none "johndoe1"
            comment := orDefault (some "hello") "" } := by
  refine ⟨by decide, by decide, ?_, ?_⟩
  · exact (C5_amended MainPy.users0
      { user_id := "johndoe1", password := "Passw0rd!",
        nickname := none, comment := some "hello" } (by decide) (by decide)).1
  · exact (C5_amended MainPy.users0
      { user_id := "johndoe1", password := "Passw0rd!",
        nickname := none, comment := some "hello" } (by decide) (by decide)).2

/-- C6 counterexample: in main.py the signup route's security dependency
rejects a validator-passing, fresh signup that carries no credential pair
with 401, leaving the store unchanged — creation does not succeed
regardless of whether credentials accompany the request. -/
theorem C6_signup_needs_credentials :
    MainPy.validSignup
      { user_id := "johndoe1", password := "Passw0rd!",
        nickname := none, comment := none } = true ∧
    member MainPy.users0 "johndoe1" = false ∧
    MainPy.signupRoute none MainPy.users0
        { user_id := "johndoe1", password := "Passw0rd!",
          nickname := none, comment := none }
      = (.err 401 "Not authenticated", MainPy.users0) := by decide

/-- C6 (amended): signup needs no authentication in app.py, main4.py and
main5.py; in main.py the route demands that some Basic credential pair be
present (a missing pair is answered 401 by the security dependency), but
the pair need not be valid: with any pair attached, every validator-passing
signup of a fresh identifier succeeds and stores the account. -/
theorem C6_amended (us : MainPy.Store) (r : MainPy.SignupRequest) (c : Credentials)
    (hval : MainPy.validSignup r = true)
    (hfresh : member us r.user_id = false) :
    (MainPy.signupRoute (some c) us r).1.status = 200 ∧
    member (MainPy.signupRoute (some c) us r).2 r.user_id = true := by
  obtain ⟨hu, hp⟩ := MainPy.validSignup_required r hval
  have hl := member_false_lookup us r.user_id hfresh
  simp [MainPy.signupRoute, MainPy.signup, member, hl, hu, hp, MainPy.Resp.status,
        lookup_put_self]

/-- C6 witness: a fresh signup accompanied by a nonsense credential pair
succeeds in main.py. -/
theorem C6_amended_witness :
    MainPy.validSignup
      { user_id := "johndoe1", password := "Passw0rd!",
        nickname := none, comment := none } = true ∧
    member MainPy.users0 "johndoe1" = false ∧
    (MainPy.signupRoute (some { username := "nobody", password := "wrong" })
        MainPy.users0
        { user_id := "johndoe1", password := "Passw0rd!",
          nickname := none, comment := none }).1.status = 200 ∧
    member (MainPy.signupRoute (some { username := "nobody", password := "wrong" })
        MainPy.users0
        { user_id := "johndoe1", password := "Passw0rd!",
          nickname := none, comment := none }).2 "johndoe1" = true := by
  refine ⟨by decide, by decide, ?_, ?_⟩
  · exact (C6_amended MainPy.users0
      { user_id := "johndoe1", password := "Passw0rd!",
        nickname := none, comment := none }
      { username := "nobody", password := "wrong" } (by decide) (by decide)).1
  · exact (C6_amended MainPy.users0
      { user_id := "johndoe1", password := "Passw0rd!",
        nickname := none, comment := none }
      { username := "nobody", password := "wrong" } (by decide) (by decide)).2

/-- C7 counterexample: in main.py an authenticated self-targeted update
with neither nickname nor comment is answered 200, not 400 — there is no
nothing-to-update check in that variant (the store is left unchanged). -/
theorem C7_empty_update_accepted :
    MainPy.update_route MainPy.users0 "TaroYamada"
        { user_id := none, password := none, nickname := none, comment := none }
        { username := "TaroYamada", password := "PaSswd4TY" }
      = (.ok "User updated successfully"
           { user_id := "TaroYamada", nickname := "たろー", comment := "僕は元気です" },
         MainPy.users0) := by decide

/-- C7 (amended): in app.py an authenticated self-targeted update in which
both nickname and comment are absent is rejected 400 (cause: required
nickname or comment) and the store is unchanged; main.py, main4.py and
main5.py instead answer such a request 200, also leaving the record
unchanged. -/
theorem C7_amended (us : AppPy.Store) (c : Credentials) (target : String)
    (u : AppPy.Rec) (r : AppPy.UpdateRequest)
    (hauth : AppPy.get_user_from_auth_header us c = some (target, u))
    (hn : r.nickname = none) (hc : r.comment = none) :
    AppPy.update_user us target c r = (.err 400 "required nickname or comment", us) := by
  simp [AppPy.update_user, hauth, hn, hc]

/-- C7 witness: johndoe1 signs up in app.py, authenticates and sends an
empty update. -/
theorem C7_amended_witness :
    AppPy.get_user_from_auth_header
        (AppPy.signup AppPy.users0 { user_id := "johndoe1", password := "Passw0rd1" }).2
        { username := "johndoe1", password := "Passw0rd1" }
      = some ("johndoe1", { password := "Passw0rd1", nickname := "johndoe1", comment := "" }) ∧
    AppPy.update_user
        (AppPy.signup AppPy.users0 { user_id := "johndoe1", password := "Passw0rd1" }).2
        "johndoe1" { username := "johndoe1", password := "Passw0rd1" }
        { nickname := none, comment := none }
      = (.err 400 "required nickname or comment",
         (AppPy.signup AppPy.users0 { user_id := "johndoe1", password := "Passw0rd1" }).2) :=
  ⟨by decide,
   C7_amended _ { username := "johndoe1", password := "Passw0rd1" } "johndoe1"
     { password := "Passw0rd1", nickname := "johndoe1", comment := "" }
     { nickname := none, comment := none } (by decide) rfl rfl⟩

/-- C8 counterexample: in main4.py a Delete aimed at an identifier that is
not in the store fails at the authentication dependency with 401, not with
the 404 NotFound the claim requires (the store is still unchanged). -/
theorem C8_delete_absent_authfails :
    member Main4.users0 "GhostUser99" = false ∧
    Main4.close_route Main4.users0 { username := "GhostUser99", password := "Whatever1" }
      = (.err 401 "Invalid credentials", Main4.users0) ∧
    (Main4.Resp.err 401 "Invalid credentials").status ≠ 404 := by decide

/-- C8 (amended): in main.py a Delete whose credential identifier is not
in the store is answered 404 and the store is unchanged — in particular
the second of two immediate Deletes of the same account yields 404, never
a crash; in main4.py and app.py the authentication dependency fails first,
answering 401, likewise without a crash and without touching the store. -/
theorem C8_amended (us : MainPy.Store) (c : Credentials)
    (habs : member us c.username = false) :
    MainPy.close_route us c = (.err 404 "User not found", us) := by
  have hl := member_false_lookup us c.username habs
  simp [MainPy.close_route, MainPy.authenticate_user, hl, MainPy.close_account]

/-- C8 witness: TaroYamada closes the account, then repeats the same
Delete; the second one is answered 404 on the unchanged store. -/
theorem C8_amended_witness :
    member (MainPy.close_route MainPy.users0
        { username := "TaroYamada", password := "PaSswd4TY" }).2 "TaroYamada" = false ∧
    MainPy.close_route
        (MainPy.close_route MainPy.users0
          { username := "TaroYamada", password := "PaSswd4TY" }).2
        { username := "TaroYamada", password := "PaSswd4TY" }
      = (.err 404 "User not found",
         (MainPy.close_route MainPy.users0
           { username := "TaroYamada", password := "PaSswd4TY" }).2) :=
  ⟨by decide,
   C8_amended _ { username := "TaroYamada", password := "PaSswd4TY" } (by decide)⟩

/-- C9: in main.py the two ways authentication can fail — the claimed
identifier is absent, or it exists but the digest of the presented secret
differs from the stored digest — produce one and the same result, the 401
Authentication Failed response, so the caller cannot tell whether the
account exists. -/
theorem C9_auth_failures_indistinguishable (us : MainPy.Store)
    (c1 c2 : Credentials) (u : MainPy.User)
    (h1 : lookup us c1.username = none)
    (h2 : lookup us c2.username = some u)
    (h3 : u.password ≠ sha256hex c2.password) :
    MainPy.authenticate_user us c1 = MainPy.authenticate_user us c2 ∧
    MainPy.authenticate_user us c1 = .failed 401 "Authentication Failed" := by
  simp [MainPy.authenticate_user, h1, h2, h3]

/-- C9 witness: an unknown identifier and TaroYamada with a wrong secret
fail identically on the seed store. -/
theorem C9_auth_failures_indistinguishable_witness :
    MainPy.authenticate_user MainPy.users0
        { username := "NoSuchUser1", password := "Whatever1!" }
      = MainPy.authenticate_user MainPy.users0
        { username := "TaroYamada", password := "WrongPass1" } ∧
    MainPy.authenticate_user MainPy.users0
        { username := "NoSuchUser1", password := "Whatever1!" }
      = .failed 401 "Authentication Failed" :=
  C9_auth_failures_indistinguishable MainPy.users0
    { username := "NoSuchUser1", password := "Whatever1!" }
    { username := "TaroYamada", password := "WrongPass1" }
    { user_id := "TaroYamada", password := sha256hex "PaSswd4TY",
      nickname := "たろー", comment := "僕は元気です" }
    (by decide) (by decide) (by decide)

/-- C10: every variant except app.py starts with a non-empty store that
already holds TaroYamada with the secret PaSswd4TY (hashed in main.py,
main4.py and main5.py, plain in trial-myapp.py); in that initial state a
signup for TaroYamada fails as a duplicate, and in the three variants with
an authenticator the pair TaroYamada, PaSswd4TY authenticates; app.py
starts empty. -/
theorem C10_initial_store_seeded :
    lookup MainPy.users0 "TaroYamada"
      = some { user_id := "TaroYamada", password := sha256hex "PaSswd4TY",
               nickname := "たろー", comment := "僕は元気です" } ∧
    (MainPy.signup MainPy.users0
        { user_id := "TaroYamada", password := "PaSswd4T!",
          nickname := none, comment := none }).1
      = .err 400 "already same user_id is used" ∧
    MainPy.authenticate_user MainPy.users0
        { username := "TaroYamada", password := "PaSswd4TY" } = .ok "TaroYamada" ∧
    lookup Main4.users0 "TaroYamada"
      = some { password := sha256hex "PaSswd4TY",
               nickname := "たろー", comment := "僕は元気です" } ∧
    (Main4.signup Main4.users0
        { user_id := "TaroYamada", password := "PaSswd4TY",
          nickname := none, comment := none }).1
      = .err 400 "User ID already exists" ∧
    Main4.authenticate_user Main4.users0
        { username := "TaroYamada", password := "PaSswd4TY" } = some "TaroYamada" ∧
    lookup Main5.users0 "TaroYamada"
      = some { user_id := "TaroYamada", password := sha256hex "PaSswd4TY",
               nickname := "たろー", comment := "僕は元気です" } ∧
    (Main5.signup Main5.users0
        { user_id := some "TaroYamada", password := some "PaSswd4TY",
          nickname := none, comment := none }).1
      = .err 400 "already same user_id is used" ∧
    Main5.authenticate_user Main5.users0
        { username := "TaroYamada", password := "PaSswd4TY" } = .ok "TaroYamada" ∧
    lookup Trial.users0 (some "TaroYamada")
      = some { password := some "PaSswd4TY",
               nickname := some "たろー", comment := some "僕は元気です" } ∧
    (Trial.signup Trial.users0
        { user_id := some "TaroYamada", password := some "PaSswd4TY",
          nickname := none, comment := none }).1
      = .err 400 "User already exists" ∧
    AppPy.users0 = [] := by decide
